import Mathlib

/-!
Shallow embedding of the ANFA data-movement scripts:
`src/import_ionq.py` (per-row InfluxDB import with a verification query),
`src/import_ionq_to_influx.py` (batched InfluxDB import, function
`import_csv_to_influxdb`), `src/analyze_ionq_local.py` (SQLite path via
`df.to_sql` with `if_exists='replace'`), and `src/prepare_data.py`.

Numeric cells are modelled exactly as rationals: the scripts only parse
decimal strings with `float()` / `int()` and pass the values through
unchanged, so no floating-point rounding is observable in the properties
treated here.
-/

set_option maxHeartbeats 1000000
set_option maxRecDepth 16384

namespace ANFA

/-- Value of a digit list, most significant digit first. -/
def digitsToNat (cs : List Char) : Nat :=
  cs.foldl (fun a c => a * 10 + (c.toNat - 48)) 0

/-- Whether a character list is a nonempty run of decimal digits. -/
def allDigits (cs : List Char) : Bool :=
  !cs.isEmpty && cs.all Char.isDigit

/-- Splits a character list at every occurrence of `sep` (the character
analogue of `String.splitOn` for a one-character separator). -/
def splitOnChar (sep : Char) : List Char → List (List Char)
  | [] => [[]]
  | c :: rest =>
      if c = sep then [] :: splitOnChar sep rest
      else
        match splitOnChar sep rest with
        | [] => [[c]]
        | g :: gs => (c :: g) :: gs

/-- Strips one leading sign character, reporting whether it was a minus. -/
def stripSign : List Char → Bool × List Char
  | '-' :: rest => (true, rest)
  | '+' :: rest => (false, rest)
  | cs => (false, cs)

/-- Python `int(s)` as applied to the CSV cells: an optional sign followed
by decimal digits.  A negative string such as `"-5"` parses successfully
to a negative integer; Python's `int` imposes no sign restriction. -/
def pyInt (s : String) : Option Int :=
  match stripSign s.data with
  | (neg, body) =>
      if allDigits body then
        if neg then some (-(digitsToNat body : Int))
        else some (digitsToNat body : Int)
      else none

/-- Python `float(s)` as applied to the CSV cells, restricted to the plain
decimal forms occurring in the data (optional sign, digits, optional
decimal point); the value is represented exactly as a rational. -/
def pyFloat (s : String) : Option Rat :=
  match stripSign s.data with
  | (neg, body) =>
      let signed : Int → Int := fun n => if neg then -n else n
      match splitOnChar '.' body with
      | [w] =>
          if allDigits w then some (mkRat (signed (digitsToNat w)) 1) else none
      | [w, f] =>
          if allDigits (w ++ f) then
            some (mkRat (signed ((digitsToNat w : Int) * 10 ^ f.length +
              (digitsToNat f : Int))) (10 ^ f.length))
          else none
      | _ => none

/-- A calendar date (the source data carries no time of day). -/
structure Date where
  year : Nat
  month : Nat
  day : Nat
deriving DecidableEq

/-- Pandas `pd.to_datetime` on the `Date` column, restricted to the ISO
`YYYY-MM-DD` form the source CSV uses. -/
def pd_to_datetime (s : String) : Option Date :=
  match splitOnChar '-' s.data with
  | [y, m, d] =>
      if allDigits y && allDigits m && allDigits d then
        let mn := digitsToNat m
        let dn := digitsToNat d
        if 1 ≤ mn ∧ mn ≤ 12 ∧ 1 ≤ dn ∧ dn ≤ 31 then
          some ⟨digitsToNat y, mn, dn⟩
        else none
      else none
  | _ => none

/-- An InfluxDB field value as set by the scripts: `float(...)` for the
four price fields, `int(...)` for volume. -/
inductive FieldValue where
  | floatVal : Rat → FieldValue
  | intVal : Int → FieldValue
deriving DecidableEq

/-- An InfluxDB point as built by `Point("ionq_stock").time(...).field(...)`. -/
structure Point where
  measurement : String
  time : Date
  fields : List (String × FieldValue)
deriving DecidableEq

/-- One raw CSV row: the six cells as strings, keyed by the header names. -/
structure RawRow where
  Date : String
  Open : String
  High : String
  Low : String
  Close : String
  Volume : String
deriving DecidableEq

/-- Loop body shared by both Influx import scripts: given the row's
already-converted date, builds the point
`Point("ionq_stock").time(d).field("open", float(row.Open))...`
`.field("volume", int(row.Volume))`; any failed conversion raises, which
is modelled as `none`. -/
def buildPoint (d : Date) (r : RawRow) : Option Point := do
  let o ← pyFloat r.Open
  let h ← pyFloat r.High
  let l ← pyFloat r.Low
  let c ← pyFloat r.Close
  let v ← pyInt r.Volume
  some { measurement := "ionq_stock", time := d,
         fields := [("open", .floatVal o), ("high", .floatVal h),
                    ("low", .floatVal l), ("close", .floatVal c),
                    ("volume", .intVal v)] }

/-- Placeholder point used only to state totality of successful runs. -/
def somePoint : Point :=
  { measurement := "", time := ⟨0, 0, 0⟩, fields := [] }

/-- The point a valid row contributes (total version of `buildPoint`). -/
def pointOf (x : Date × RawRow) : Point :=
  (buildPoint x.1 x.2).getD somePoint

/-- Row loop of `src/import_ionq.py`: each row's point is written to the
sink immediately (`write_api.write` per row); a failed conversion raises
and aborts the loop.  Returns the points written so far together with the
failing row index, if any.  Already-written points are never removed:
the script has no rollback path. -/
def ionq_write_go : List (Date × RawRow) → Nat → List Point →
    List Point × Option Nat
  | [], _, written => (written, none)
  | x :: rest, idx, written =>
      match buildPoint x.1 x.2 with
      | none => (written, some idx)
      | some p => ionq_write_go rest (idx + 1) (written ++ [p])

/-- Entry point of the `src/import_ionq.py` write loop. -/
def ionq_write_loop (rows : List (Date × RawRow)) : List Point × Option Nat :=
  ionq_write_go rows 0 []

/-- Observable outcome of one run of `src/import_ionq.py`. -/
structure RunResult where
  written : List Point
  failedRow : Option Nat
  queriedLastClose : Bool
  printedLastClose : Option Rat
  success : Bool
deriving DecidableEq

/-- Full run of `src/import_ionq.py`.  `lastCloseAnswer` is the value the
sink returns for the verification query (last `close` point).  On a parse
failure the exception propagates: no query runs and the exit status is
non-zero.  Otherwise the script prints the success message, issues the
query, prints whatever comes back, and exits 0 — the answer is printed
but never compared against anything. -/
def ionq_run (rows : List (Date × RawRow)) (lastCloseAnswer : Option Rat) :
    RunResult :=
  match ionq_write_loop rows with
  | (written, some i) =>
      { written := written, failedRow := some i, queriedLastClose := false,
        printedLastClose := none, success := false }
  | (written, none) =>
      { written := written, failedRow := none, queriedLastClose := true,
        printedLastClose := lastCloseAnswer, success := true }

/-! ### The batched importer, function `import_csv_to_influxdb` of
`src/import_ionq_to_influx.py` -/

/-- A CSV as the pandas loader presents it: a header and data rows. -/
structure Csv where
  header : List String
  rows : List (List String)
deriving DecidableEq

/-- Column access `row[name]` on a dataframe row: the cell at the
position the name has in the header; `none` models the `KeyError`
pandas raises when the column is absent. -/
def getCol (header row : List String) (name : String) : Option String :=
  match header, row with
  | [], _ => none
  | _ :: _, [] => none
  | h :: hs, cell :: cells =>
      if h = name then some cell else getCol hs cells name

/-- Abort causes of a run of `import_csv_to_influxdb` (the script defines
no error types of its own; these name the unhandled Python exceptions). -/
inductive CsvError where
  | keyError (col : String)
  | dateError
  | rowError (idx : Nat)
  | writeError (batchIdx : Nat)
deriving DecidableEq

/-- Cell-by-cell conversion of the `Date` column by `pd.to_datetime`;
an unparsable cell raises, modelled as `none`. -/
def parseDateCells (header : List String) :
    List (List String) → Option (List Date)
  | [] => some []
  | cells :: rest =>
      match (getCol header cells "Date").bind pd_to_datetime with
      | none => none
      | some d => (parseDateCells header rest).map (d :: ·)

/-- The statement `df['Date'] = pd.to_datetime(df['Date'])`: the access
`df['Date']` raises `KeyError` when the column is missing from the
header; otherwise every cell is converted. -/
def pdDateColumn (c : Csv) : Except CsvError (List Date) :=
  if c.header.contains "Date" then
    match parseDateCells c.header c.rows with
    | some ds => .ok ds
    | none => .error .dateError
  else .error (.keyError "Date")

/-- Loop body of `import_csv_to_influxdb` on one dataframe row: for each
field, the cell access (`KeyError` when the column is missing) followed
by `float(...)` / `int(...)` (`ValueError` on non-numeric input); any
failure raises, modelled as `none`. -/
def buildPointFromCells (header : List String) (d : Date)
    (cells : List String) : Option Point := do
  let o ← (getCol header cells "Open").bind pyFloat
  let h ← (getCol header cells "High").bind pyFloat
  let l ← (getCol header cells "Low").bind pyFloat
  let c ← (getCol header cells "Close").bind pyFloat
  let v ← (getCol header cells "Volume").bind pyInt
  some { measurement := "ionq_stock", time := d,
         fields := [("open", .floatVal o), ("high", .floatVal h),
                    ("low", .floatVal l), ("close", .floatVal c),
                    ("volume", .intVal v)] }

/-- Write loop of `import_csv_to_influxdb`: points accumulate in a buffer
and `write_api.write` is called whenever the buffer holds 1000 points
("Write in batches of 1000", hardcoded), with a final flush of the
remainder after the loop.  `failsAt n` says whether the destination
fails the `n`-th write call; the script wraps the call in no retry and
no handler, so a failing call raises and aborts the run, with earlier
batches already persisted and never rolled back.  Returns the
acknowledged write calls in order and the abort cause, if any. -/
def influx_csv_go (header : List String) (failsAt : Nat → Bool) :
    List (Date × List String) → Nat → List Point → List (List Point) →
    List (List Point) × Option CsvError
  | [], _, buf, writes =>
      if buf.isEmpty then (writes, none)
      else if failsAt writes.length then
        (writes, some (.writeError writes.length))
      else (writes ++ [buf], none)
  | x :: rest, idx, buf, writes =>
      match buildPointFromCells header x.1 x.2 with
      | none => (writes, some (.rowError idx))
      | some p =>
          if 1000 ≤ (buf ++ [p]).length then
            if failsAt writes.length then
              (writes, some (.writeError writes.length))
            else influx_csv_go header failsAt rest (idx + 1) []
              (writes ++ [buf ++ [p]])
          else influx_csv_go header failsAt rest (idx + 1) (buf ++ [p]) writes

/-- Observable outcome of one run of `import_csv_to_influxdb`. -/
structure CsvRunResult where
  writes : List (List Point)
  error : Option CsvError
  queriedLastClose : Bool
  printedLastClose : Option Rat
  success : Bool
deriving DecidableEq

/-- Full run of `import_csv_to_influxdb`: read the CSV, convert the
`Date` column, run the batched write loop, and on success print the
success message, issue the verification query for the last `close`
point, print whatever the sink answers (`lastCloseAnswer`), and exit 0.
Any exception propagates: the query never runs and the exit status is
non-zero.  The query's answer is printed but compared against nothing. -/
def influx_csv_run (c : Csv) (failsAt : Nat → Bool)
    (lastCloseAnswer : Option Rat) : CsvRunResult :=
  match pdDateColumn c with
  | .error e =>
      { writes := [], error := some e, queriedLastClose := false,
        printedLastClose := none, success := false }
  | .ok dates =>
      match influx_csv_go c.header failsAt (dates.zip c.rows) 0 [] [] with
      | (writes, some e) =>
          { writes := writes, error := some e, queriedLastClose := false,
            printedLastClose := none, success := false }
      | (writes, none) =>
          { writes := writes, error := none, queriedLastClose := true,
            printedLastClose := lastCloseAnswer, success := true }

/-- Write-call sizes the 1000-point batching produces for `n` points:
full batches of 1000 followed by the nonempty remainder. -/
def chunkSizes (n : Nat) : List Nat :=
  if n = 0 then [] else if 1000 ≤ n then 1000 :: chunkSizes (n - 1000) else [n]
termination_by n
decreasing_by omega

/-! ### The embedded-store path of `src/analyze_ionq_local.py` -/

/-- A cell of the SQLite table written by `analyze_ionq_local.py`. -/
inductive Cell where
  | dateCell : Date → Cell
  | floatCell : Rat → Cell
  | intCell : Int → Cell
deriving DecidableEq

/-- A SQL table: column names and rows of cells. -/
structure SqlTable where
  columns : List String
  rows : List (List Cell)
deriving DecidableEq

/-- One dataframe row after the column coercions of
`analyze_ionq_local.py` lines 18-23: `Date` via `pd.to_datetime`, the
four price columns via `astype(float)`, `Volume` via `astype(int)`
(stated per row; the script applies them column by column). -/
structure PriceRow where
  Date : Date
  Open : Rat
  High : Rat
  Low : Rat
  Close : Rat
  Volume : Int
deriving DecidableEq

/-- The coercions of `analyze_ionq_local.py` applied to one raw row. -/
def coerceRow (r : RawRow) : Option PriceRow := do
  let d ← pd_to_datetime r.Date
  let o ← pyFloat r.Open
  let h ← pyFloat r.High
  let l ← pyFloat r.Low
  let c ← pyFloat r.Close
  let v ← pyInt r.Volume
  some ⟨d, o, h, l, c, v⟩

/-- The table `df.to_sql('ionq_prices', conn, ...)` stores: the coerced
dataframe's six columns (`index=False`, so no extra index column). -/
def priceTable (rows : List PriceRow) : SqlTable :=
  { columns := ["Date", "Open", "High", "Low", "Close", "Volume"],
    rows := rows.map fun r =>
      [.dateCell r.Date, .floatCell r.Open, .floatCell r.High,
       .floatCell r.Low, .floatCell r.Close, .intCell r.Volume] }

/-- `df.to_sql(name, conn, if_exists='replace', index=False)`: any
existing table of that name is dropped and the new table stored. -/
def to_sql_replace (db : List (String × SqlTable)) (name : String)
    (t : SqlTable) : List (String × SqlTable) :=
  db.filter (fun e => e.1 != name) ++ [(name, t)]

/-! ### The remote sink's record set -/

/-- Modelled from the spec: the remote time-series sink's stored record
set, keyed by measurement and timestamp.  The sink itself (InfluxDB) is
an external collaborator with no code under `src/`; per spec §3 and
§4.3, a written point overwrites any existing point with the same
measurement and timestamp ("re-running with the same input overwrites by
timestamp rather than duplicating"). -/
def SinkState : Type :=
  String × Date → Option (List (String × FieldValue))

/-- Modelled from the spec: one point write against the sink's record
set; last write wins on the measurement/timestamp key. -/
def sinkWritePoint (s : SinkState) (p : Point) : SinkState :=
  fun k => if (p.measurement, p.time) = k then some p.fields else s k

/-- The sink's record set after a sequence of point writes. -/
def sinkWriteAll (s : SinkState) (ps : List Point) : SinkState :=
  ps.foldl sinkWritePoint s

/-- Step function recording the most recent fields written for key `k`. -/
def lastFieldsStep (k : String × Date)
    (acc : Option (List (String × FieldValue))) (p : Point) :
    Option (List (String × FieldValue)) :=
  if (p.measurement, p.time) = k then some p.fields else acc

/-- The fields last written for key `k` by a point sequence, if any. -/
def lastFields (ps : List Point) (k : String × Date) :
    Option (List (String × FieldValue)) :=
  ps.foldl (lastFieldsStep k) none

example : pyInt "-5" = some (-5) := by decide

example : pyFloat "10.00" = some 10 := by decide

example : pyFloat "9.50" = some (mkRat 19 2) := by decide

example : pyFloat "-0.25" = some (mkRat (-1) 4) := by decide

example : pyFloat "abc" = none := by decide

example : pd_to_datetime "2021-01-01" = some ⟨2021, 1, 1⟩ := by decide

example :
    buildPoint ⟨2021, 1, 1⟩
      ⟨"2021-01-01", "10.00", "11.00", "9.50", "10.50", "1000"⟩ =
    some { measurement := "ionq_stock", time := ⟨2021, 1, 1⟩,
           fields := [("open", .floatVal 10), ("high", .floatVal 11),
                      ("low", .floatVal (mkRat 19 2)),
                      ("close", .floatVal (mkRat 21 2)),
                      ("volume", .intVal 1000)] } := by decide

example :
    influx_csv_run
      ⟨["Date", "Open", "High", "Low", "Close", "Volume"],
       [["2021-01-01", "10.00", "11.00", "9.50", "10.50", "1000"],
        ["2021-01-04", "10.50", "12.00", "10.00", "11.75", "2000"]]⟩
      (fun _ => false) (some (mkRat 47 4)) =
    { writes :=
        [[⟨"ionq_stock", ⟨2021, 1, 1⟩,
           [("open", .floatVal 10), ("high", .floatVal 11),
            ("low", .floatVal (mkRat 19 2)), ("close", .floatVal (mkRat 21 2)),
            ("volume", .intVal 1000)]⟩,
          ⟨"ionq_stock", ⟨2021, 1, 4⟩,
           [("open", .floatVal (mkRat 21 2)), ("high", .floatVal 12),
            ("low", .floatVal 10), ("close", .floatVal (mkRat 47 4)),
            ("volume", .intVal 2000)]⟩]],
      error := none, queriedLastClose := true,
      printedLastClose := some (mkRat 47 4), success := true } := by decide

example :
    influx_csv_run ⟨["Date", "High", "Low", "Close", "Volume"], []⟩
      (fun _ => false) none =
    { writes := [], error := none, queriedLastClose := true,
      printedLastClose := none, success := true } := by decide

example : chunkSizes 2500 = [1000, 1000, 500] := by
  rw [chunkSizes, chunkSizes, chunkSizes, chunkSizes]
  norm_num

/-! ### Lemmas about the write loops -/

/-- On rows whose conversions all succeed, the per-row loop writes one
point per row, in order, and reports no failure. -/
theorem ionq_write_go_ok (rows : List (Date × RawRow)) :
    ∀ idx written, (∀ x ∈ rows, (buildPoint x.1 x.2).isSome = true) →
    ionq_write_go rows idx written = (written ++ rows.map pointOf, none) := by
  induction rows with
  | nil => intro idx written _; simp [ionq_write_go]
  | cons x rest ih =>
      intro idx written hv
      obtain ⟨p, hp⟩ := Option.isSome_iff_exists.mp (hv x (by simp))
      simp only [ionq_write_go, hp]
      rw [ih (idx + 1) (written ++ [p]) (fun y hy => hv y (by simp [hy]))]
      simp [pointOf, hp]

/-- When the first conversion failure occurs after `good`, the per-row
loop has written exactly the points of `good` and aborts there. -/
theorem ionq_write_go_fail (good : List (Date × RawRow))
    (bad : Date × RawRow) (rest : List (Date × RawRow)) :
    ∀ idx written, (∀ x ∈ good, (buildPoint x.1 x.2).isSome = true) →
    buildPoint bad.1 bad.2 = none →
    ionq_write_go (good ++ bad :: rest) idx written =
      (written ++ good.map pointOf, some (idx + good.length)) := by
  induction good with
  | nil =>
      intro idx written _ hbad
      simp [ionq_write_go, hbad]
  | cons x g ih =>
      intro idx written hv hbad
      obtain ⟨p, hp⟩ := Option.isSome_iff_exists.mp (hv x (by simp))
      rw [List.cons_append]
      simp only [ionq_write_go, hp]
      rw [ih (idx + 1) (written ++ [p]) (fun y hy => hv y (by simp [hy])) hbad]
      simp [pointOf, hp]
      omega

/-- With a destination that never fails, the batched loop over valid rows
emits write calls whose sizes are exactly the 1000-chunking of the point
count, and reports no error. -/
theorem influx_csv_go_sizes (header : List String)
    (rows : List (Date × List String)) :
    ∀ idx buf writes,
    (∀ x ∈ rows, (buildPointFromCells header x.1 x.2).isSome = true) →
    buf.length < 1000 →
    (influx_csv_go header (fun _ => false) rows idx buf writes).1.map
        List.length =
      writes.map List.length ++ chunkSizes (buf.length + rows.length) ∧
    (influx_csv_go header (fun _ => false) rows idx buf writes).2 = none := by
  induction rows with
  | nil =>
      intro idx buf writes _ hbuf
      cases buf with
      | nil => simp [influx_csv_go, chunkSizes]
      | cons b bs =>
          have hbuf1 : bs.length + 1 < 1000 := by simpa using hbuf
          have hcs : chunkSizes (bs.length + 1) = [bs.length + 1] := by
            rw [chunkSizes, if_neg (by omega), if_neg (by omega)]
          simp [influx_csv_go, hcs]
  | cons x rest ih =>
      intro idx buf writes hv hbuf
      obtain ⟨p, hp⟩ := Option.isSome_iff_exists.mp (hv x (by simp))
      have hv' : ∀ y ∈ rest, (buildPointFromCells header y.1 y.2).isSome =
          true := fun y hy => hv y (by simp [hy])
      have hblen : (buf ++ [p]).length = buf.length + 1 := by
        simp only [List.length_append, List.length_cons, List.length_nil]
      simp only [influx_csv_go, hp]
      by_cases hfull : 1000 ≤ buf.length + 1
      · have h999 : buf.length = 999 := by omega
        rw [if_pos (by omega : 1000 ≤ (buf ++ [p]).length)]
        simp only [Bool.false_eq_true, if_false]
        have hrec := ih (idx + 1) [] (writes ++ [buf ++ [p]]) hv' (by simp)
        refine ⟨?_, hrec.2⟩
        rw [hrec.1]
        simp only [List.length_nil, Nat.zero_add, List.length_cons]
        rw [h999]
        have harg : 999 + (rest.length + 1) - 1000 = rest.length := by omega
        have hcs : chunkSizes (999 + (rest.length + 1)) =
            1000 :: chunkSizes rest.length := by
          rw [chunkSizes, if_neg (by omega), if_pos (by omega), harg]
        rw [hcs]
        simp [h999]
      · rw [if_neg (by omega : ¬ 1000 ≤ (buf ++ [p]).length)]
        have hlen : (buf ++ [p]).length < 1000 := by omega
        have hrec := ih (idx + 1) (buf ++ [p]) writes hv' hlen
        refine ⟨?_, hrec.2⟩
        rw [hrec.1]
        have harg : (buf ++ [p]).length + rest.length =
            buf.length + (rest.length + 1) := by omega
        rw [harg]
        simp only [List.length_cons]

/-- When the first conversion failure occurs after `good`, the batched
loop has flushed exactly the full 1000-point batches among the points of
`good` and aborts at that row; the buffered remainder is lost and the
flushed batches stay written. -/
theorem influx_csv_go_fail (header : List String)
    (bad : Date × List String) (rest : List (Date × List String))
    (good : List (Date × List String)) :
    ∀ idx buf writes,
    (∀ x ∈ good, (buildPointFromCells header x.1 x.2).isSome = true) →
    buildPointFromCells header bad.1 bad.2 = none →
    buf.length < 1000 →
    (influx_csv_go header (fun _ => false) (good ++ bad :: rest) idx buf
        writes).1.map List.length =
      writes.map List.length ++
        List.replicate ((buf.length + good.length) / 1000) 1000 ∧
    (influx_csv_go header (fun _ => false) (good ++ bad :: rest) idx buf
        writes).2 = some (.rowError (idx + good.length)) := by
  induction good with
  | nil =>
      intro idx buf writes _ hbad hbuf
      have hdiv : buf.length / 1000 = 0 := Nat.div_eq_of_lt hbuf
      simp [influx_csv_go, hbad, hdiv]
  | cons x g ih =>
      intro idx buf writes hv hbad hbuf
      obtain ⟨p, hp⟩ := Option.isSome_iff_exists.mp (hv x (by simp))
      have hv' : ∀ y ∈ g, (buildPointFromCells header y.1 y.2).isSome =
          true := fun y hy => hv y (by simp [hy])
      have hblen : (buf ++ [p]).length = buf.length + 1 := by
        simp only [List.length_append, List.length_cons, List.length_nil]
      rw [List.cons_append]
      simp only [influx_csv_go, hp]
      by_cases hfull : 1000 ≤ buf.length + 1
      · have h999 : buf.length = 999 := by omega
        rw [if_pos (by omega : 1000 ≤ (buf ++ [p]).length)]
        simp only [Bool.false_eq_true, if_false]
        have hrec := ih (idx + 1) [] (writes ++ [buf ++ [p]]) hv' hbad
          (by simp)
        constructor
        · rw [hrec.1]
          simp only [List.length_nil, Nat.zero_add, List.length_cons]
          have hdiv : (buf.length + (g.length + 1)) / 1000 =
              g.length / 1000 + 1 := by omega
          rw [hdiv, List.replicate_succ]
          simp [h999]
        · simp only [hrec.2, Option.some.injEq, CsvError.rowError.injEq,
            List.length_cons]
          omega
      · rw [if_neg (by omega : ¬ 1000 ≤ (buf ++ [p]).length)]
        have hlen : (buf ++ [p]).length < 1000 := by omega
        have hrec := ih (idx + 1) (buf ++ [p]) writes hv' hbad hlen
        constructor
        · rw [hrec.1]
          have harg : (buf ++ [p]).length + g.length =
              buf.length + (g.length + 1) := by omega
          rw [harg]
          simp only [List.length_cons]
        · simp only [hrec.2, Option.some.injEq, CsvError.rowError.injEq,
            List.length_cons]
          omega

/-- When the destination fails the first write call, the batched loop
over valid rows aborts with no batch acknowledged: the script gives each
write call a single attempt and never retries. -/
theorem influx_csv_go_first_write_fails (header : List String)
    (failsAt : Nat → Bool) (rows : List (Date × List String)) :
    ∀ idx buf,
    (∀ x ∈ rows, (buildPointFromCells header x.1 x.2).isSome = true) →
    buf.length < 1000 → 0 < buf.length + rows.length →
    failsAt 0 = true →
    influx_csv_go header failsAt rows idx buf [] =
      ([], some (.writeError 0)) := by
  induction rows with
  | nil =>
      intro idx buf _ hbuf hpos hfail
      cases buf with
      | nil => simp at hpos
      | cons b bs => simp [influx_csv_go, hfail]
  | cons x rest ih =>
      intro idx buf hv hbuf hpos hfail
      obtain ⟨p, hp⟩ := Option.isSome_iff_exists.mp (hv x (by simp))
      have hv' : ∀ y ∈ rest, (buildPointFromCells header y.1 y.2).isSome =
          true := fun y hy => hv y (by simp [hy])
      have hblen : (buf ++ [p]).length = buf.length + 1 := by
        simp only [List.length_append, List.length_cons, List.length_nil]
      simp only [influx_csv_go, hp]
      by_cases hfull : 1000 ≤ buf.length + 1
      · rw [if_pos (by omega : 1000 ≤ (buf ++ [p]).length)]
        simp [hfail]
      · rw [if_neg (by omega : ¬ 1000 ≤ (buf ++ [p]).length)]
        exact ih (idx + 1) (buf ++ [p]) hv' (by omega) (by omega) hfail

/-- Folding the last-write step from any accumulator factors through the
fold from `none`. -/
theorem foldl_lastFieldsStep (k : String × Date) (ps : List Point) :
    ∀ acc : Option (List (String × FieldValue)),
    ps.foldl (lastFieldsStep k) acc =
      (ps.foldl (lastFieldsStep k) none).or acc := by
  induction ps with
  | nil => intro acc; rfl
  | cons p ps ih =>
      intro acc
      rw [List.foldl_cons, List.foldl_cons, ih, ih (lastFieldsStep k none p)]
      by_cases hc : (p.measurement, p.time) = k <;>
        cases hA : ps.foldl (lastFieldsStep k) none <;>
        simp [lastFieldsStep, hc, hA, Option.or]

/-- Pointwise description of the sink's record set after a write
sequence: the last write to a key wins, and untouched keys keep their
prior contents. -/
theorem sinkWriteAll_apply (ps : List Point) :
    ∀ (s : SinkState) (k : String × Date),
    sinkWriteAll s ps k = (lastFields ps k).or (s k) := by
  induction ps with
  | nil => intro s k; rfl
  | cons p ps ih =>
      intro s k
      show sinkWriteAll (sinkWritePoint s p) ps k = _
      rw [ih]
      have hlf : lastFields (p :: ps) k =
          (lastFields ps k).or (lastFieldsStep k none p) := by
        rw [lastFields, List.foldl_cons, foldl_lastFieldsStep, lastFields]
      rw [hlf]
      by_cases hc : (p.measurement, p.time) = k <;>
        cases hA : ps.foldl (lastFieldsStep k) none <;>
        simp [sinkWritePoint, lastFieldsStep, lastFields, hc, hA, Option.or]

/-- Re-applying the same write sequence leaves the sink's record set
unchanged. -/
theorem sinkWriteAll_idem (s : SinkState) (ps : List Point) :
    sinkWriteAll (sinkWriteAll s ps) ps = sinkWriteAll s ps := by
  funext k
  rw [sinkWriteAll_apply, sinkWriteAll_apply]
  cases h : lastFields ps k <;> rfl

/-- A replace-write followed by the same replace-write equals one. -/
theorem to_sql_replace_idem (db : List (String × SqlTable)) (name : String)
    (t : SqlTable) :
    to_sql_replace (to_sql_replace db name t) name t =
      to_sql_replace db name t := by
  rw [to_sql_replace, to_sql_replace, List.filter_append, List.filter_filter]
  simp

/-- After a replace-write, the only entry named `name` is the new
table. -/
theorem to_sql_replace_lookup (db : List (String × SqlTable)) (name : String)
    (t : SqlTable) :
    (to_sql_replace db name t).filter (fun e => e.1 == name) =
      [(name, t)] := by
  rw [to_sql_replace, List.filter_append, List.filter_filter]
  simp

/-- A replace-write leaves tables of every other name untouched. -/
theorem to_sql_replace_other (db : List (String × SqlTable))
    (name other : String) (t : SqlTable) (h : other ≠ name) :
    (to_sql_replace db name t).filter (fun e => e.1 == other) =
      db.filter (fun e => e.1 == other) := by
  rw [to_sql_replace, List.filter_append, List.filter_filter]
  have hsingle : [(name, t)].filter (fun e => e.1 == other) = [] := by
    simp [Ne.symm h]
  rw [hsingle, List.append_nil]
  apply List.filter_congr
  intro e _
  by_cases he : e.1 = other
  · simp [he, bne, h]
  · simp [he]

/-- A missing column is missing in every row lookup. -/
theorem getCol_of_not_contains (name : String) :
    ∀ (header row : List String), header.contains name = false →
    getCol header row name = none := by
  intro header
  induction header with
  | nil => intro row _; cases row <;> rfl
  | cons a hs ih =>
      intro row h
      simp only [List.contains_cons, Bool.or_eq_false_iff] at h
      cases row with
      | nil => rfl
      | cons cell cells =>
          have hne : ¬ a = name :=
            fun hh => (by simpa using h.1 : ¬ name = a) hh.symm
          rw [getCol, if_neg hne]
          exact ih cells h.2

/-- Successful date-column conversion preserves the row count. -/
theorem parseDateCells_length (header : List String) :
    ∀ (rows : List (List String)) (ds : List Date),
    parseDateCells header rows = some ds → ds.length = rows.length := by
  intro rows
  induction rows with
  | nil =>
      intro ds h
      rw [parseDateCells] at h
      cases h
      rfl
  | cons r rs ih =>
      intro ds h
      rw [parseDateCells] at h
      cases hg : (getCol header r "Date").bind pd_to_datetime with
      | none => rw [hg] at h; cases h
      | some d =>
          rw [hg] at h
          cases hp : parseDateCells header rs with
          | none => rw [hp] at h; cases h
          | some ds2 =>
              rw [hp] at h
              simp only [Option.map_some] at h
              cases h
              simp [ih ds2 hp]

/-- A successful `pd.to_datetime` column conversion yields one date per
row. -/
theorem pdDateColumn_length (c : Csv) (dates : List Date)
    (h : pdDateColumn c = .ok dates) : dates.length = c.rows.length := by
  by_cases hc : c.header.contains "Date"
  · rw [pdDateColumn, if_pos hc] at h
    cases hp : parseDateCells c.header c.rows with
    | none => rw [hp] at h; cases h
    | some ds =>
        rw [hp] at h
        cases h
        exact parseDateCells_length c.header c.rows dates hp
  · rw [pdDateColumn, if_neg hc] at h
    cases h

/-- A single-row run of the per-row script with convertible cells writes
exactly the built point and succeeds, whatever the verification
answer. -/
theorem ionq_run_single_ok (d : Date) (r : RawRow) (o h l c : Rat)
    (v : Int) (ans : Option Rat)
    (ho : pyFloat r.Open = some o) (hh : pyFloat r.High = some h)
    (hl : pyFloat r.Low = some l) (hc : pyFloat r.Close = some c)
    (hv : pyInt r.Volume = some v) :
    ionq_run [(d, r)] ans =
      { written := [⟨"ionq_stock", d,
          [("open", .floatVal o), ("high", .floatVal h), ("low", .floatVal l),
           ("close", .floatVal c), ("volume", .intVal v)]⟩],
        failedRow := none, queriedLastClose := true,
        printedLastClose := ans, success := true } := by
  have hbp : buildPoint d r = some ⟨"ionq_stock", d,
      [("open", .floatVal o), ("high", .floatVal h), ("low", .floatVal l),
       ("close", .floatVal c), ("volume", .intVal v)]⟩ := by
    simp [buildPoint, ho, hh, hl, hc, hv]
  rw [ionq_run, ionq_write_loop]
  simp [ionq_write_go, hbp]

/-! ### Claim theorems -/

/-- Claim C1: the Sink Writer of `import_csv_to_influxdb` writes to the
remote sink in fixed-size batches of 1000 rows.  On an input of 2500
rows whose cells all convert, with a destination that accepts every
call, exactly 3 write calls occur, of sizes 1000, 1000 and 500, in that
order, and no error is reported. -/
theorem C1_batch_sizes (header : List String)
    (rows : List (Date × List String))
    (hv : ∀ x ∈ rows, (buildPointFromCells header x.1 x.2).isSome = true)
    (hlen : rows.length = 2500) :
    (influx_csv_go header (fun _ => false) rows 0 [] []).1.map List.length =
      [1000, 1000, 500] ∧
    (influx_csv_go header (fun _ => false) rows 0 [] []).2 = none := by
  have h := influx_csv_go_sizes header rows 0 [] [] hv (by simp)
  refine ⟨?_, h.2⟩
  rw [h.1, hlen]
  simp only [List.map_nil, List.nil_append, List.length_nil, Nat.zero_add]
  rw [chunkSizes, chunkSizes, chunkSizes, chunkSizes]
  norm_num

/-- Witness for C1 at a concrete 2500-row input. -/
theorem C1_batch_sizes_witness :
    (influx_csv_go ["Date", "Open", "High", "Low", "Close", "Volume"]
        (fun _ => false)
        (List.replicate 2500 (⟨2021, 1, 1⟩,
          ["2021-01-01", "10.00", "11.00", "9.50", "10.50", "1000"]))
        0 [] []).1.map List.length = [1000, 1000, 500] :=
  (C1_batch_sizes _ _
    (fun x hx => by rw [List.eq_of_mem_replicate hx]; decide)
    (by simp)).1

/-- Claim C2 counterexample: a one-row input whose close price is 10.50,
with a verification answer of 999 — different from the last written
close — still yields a successful run: the script prints the answer but
never compares it with anything, so no mismatch is ever reported and no
`VerificationError` exists. -/
theorem C2_counterexample :
    ionq_run [(⟨2021, 1, 1⟩,
        ⟨"2021-01-01", "10.00", "11.00", "9.50", "10.50", "1000"⟩)]
      (some 999) =
      { written := [⟨"ionq_stock", ⟨2021, 1, 1⟩,
          [("open", .floatVal 10), ("high", .floatVal 11),
           ("low", .floatVal (mkRat 19 2)), ("close", .floatVal (mkRat 21 2)),
           ("volume", .intVal 1000)]⟩],
        failedRow := none, queriedLastClose := true,
        printedLastClose := some 999, success := true } ∧
    decide ((999 : Rat) = mkRat 21 2) = false := by decide

/-- Claim C2 amended: after a fully successful import the run issues one
verification read for the most recent `close` point and prints the
answer, but reports success regardless of that answer: the outcome is
independent of the value the sink returns, no comparison with the last
written close occurs, and no `VerificationError` is ever raised. -/
theorem C2_no_verification_comparison (rows : List (Date × RawRow))
    (a b : Option Rat) :
    (ionq_run rows a).success = (ionq_run rows b).success ∧
    ((ionq_run rows a).failedRow = none →
      (ionq_run rows a).queriedLastClose = true ∧
      (ionq_run rows a).success = true ∧
      (ionq_run rows a).printedLastClose = a) := by
  cases hloop : ionq_write_loop rows with
  | mk written err =>
      cases err with
      | none => simp [ionq_run, hloop]
      | some i => simp [ionq_run, hloop]

/-- Witness for C2 amended at a concrete successful run. -/
theorem C2_no_verification_comparison_witness :
    (ionq_run [(⟨2021, 1, 1⟩,
        ⟨"2021-01-01", "10.00", "11.00", "9.50", "10.50", "1000"⟩)]
      (some 999)).queriedLastClose = true ∧
    (ionq_run [(⟨2021, 1, 1⟩,
        ⟨"2021-01-01", "10.00", "11.00", "9.50", "10.50", "1000"⟩)]
      (some 999)).success = true :=
  have h := C2_no_verification_comparison
    [(⟨2021, 1, 1⟩, ⟨"2021-01-01", "10.00", "11.00", "9.50", "10.50", "1000"⟩)]
    (some 999) none
  ⟨(h.2 (by decide)).1, (h.2 (by decide)).2.1⟩

/-- Claim C3 counterexample: the scenario row with `Volume:"-5"`.  The
script parses the negative volume successfully (`int("-5") = -5`),
writes the point with volume −5, and the run succeeds with exit status
0: no `InvalidNumericError` is reported and nothing is rejected. -/
theorem C3_counterexample :
    pyInt "-5" = some (-5) ∧
    ionq_run [(⟨2021, 1, 1⟩,
        ⟨"2021-01-01", "10.00", "11.00", "9.50", "10.50", "-5"⟩)] none =
      { written := [⟨"ionq_stock", ⟨2021, 1, 1⟩,
          [("open", .floatVal 10), ("high", .floatVal 11),
           ("low", .floatVal (mkRat 19 2)), ("close", .floatVal (mkRat 21 2)),
           ("volume", .intVal (-5))]⟩],
        failedRow := none, queriedLastClose := true,
        printedLastClose := none, success := true } := by decide

/-- Claim C3 amended: a row whose `Volume` cell is a negative integer
string is not rejected: the conversion succeeds, the point is written
carrying the negative volume, the run continues normally and exits 0;
no `InvalidNumericError` exists anywhere in the scripts. -/
theorem C3_negative_volume_accepted (d : Date) (r : RawRow)
    (o h l c : Rat) (v : Int)
    (ho : pyFloat r.Open = some o) (hh : pyFloat r.High = some h)
    (hl : pyFloat r.Low = some l) (hc : pyFloat r.Close = some c)
    (hv : pyInt r.Volume = some v) (hneg : v < 0) :
    ionq_run [(d, r)] none =
      { written := [⟨"ionq_stock", d,
          [("open", .floatVal o), ("high", .floatVal h), ("low", .floatVal l),
           ("close", .floatVal c), ("volume", .intVal v)]⟩],
        failedRow := none, queriedLastClose := true,
        printedLastClose := none, success := true } :=
  ionq_run_single_ok d r o h l c v none ho hh hl hc hv

/-- Witness for C3 amended at the `Volume:"-5"` row. -/
theorem C3_negative_volume_accepted_witness :
    ionq_run [(⟨2021, 1, 1⟩,
        ⟨"2021-01-01", "10.00", "11.00", "9.50", "10.50", "-5"⟩)] none =
      { written := [⟨"ionq_stock", ⟨2021, 1, 1⟩,
          [("open", .floatVal 10), ("high", .floatVal 11),
           ("low", .floatVal (mkRat 19 2)), ("close", .floatVal (mkRat 21 2)),
           ("volume", .intVal (-5))]⟩],
        failedRow := none, queriedLastClose := true,
        printedLastClose := none, success := true } :=
  C3_negative_volume_accepted ⟨2021, 1, 1⟩
    ⟨"2021-01-01", "10.00", "11.00", "9.50", "10.50", "-5"⟩
    10 11 (mkRat 19 2) (mkRat 21 2) (-5)
    (by decide) (by decide) (by decide) (by decide) (by decide) (by decide)

/-- Claim C4 counterexample: a destination that fails the first two
write calls and would succeed from the third one on.  On a valid
one-row input the run performs no retry: the batch's single write
attempt fails, the run aborts with the unhandled write error for call 0,
and the batch is never recorded as written — the third attempt the
claim's scenario expects is never made. -/
theorem C4_counterexample :
    (fun n => decide (n < 2)) 0 = true ∧
    (fun n => decide (n < 2)) 1 = true ∧
    (fun n => decide (n < 2)) 2 = false ∧
    influx_csv_go ["Date", "Open", "High", "Low", "Close", "Volume"]
      (fun n => decide (n < 2))
      [(⟨2021, 1, 1⟩,
        ["2021-01-01", "10.00", "11.00", "9.50", "10.50", "1000"])]
      0 [] [] = ([], some (.writeError 0)) := by decide

/-- Claim C4 amended: no retry and no backoff exist.  Every write call
gets exactly one attempt: on any nonempty input whose cells all convert,
if the destination fails the first write call, the run aborts
immediately with the unhandled error of call 0, nothing is recorded as
written, and no `SinkWriteError` (or any retry of the batch) occurs. -/
theorem C4_no_retry (header : List String) (failsAt : Nat → Bool)
    (rows : List (Date × List String))
    (hv : ∀ x ∈ rows, (buildPointFromCells header x.1 x.2).isSome = true)
    (hne : rows ≠ []) (hfail : failsAt 0 = true) :
    influx_csv_go header failsAt rows 0 [] [] =
      ([], some (.writeError 0)) :=
  influx_csv_go_first_write_fails header failsAt rows 0 [] hv (by simp)
    (by simpa using List.length_pos.mpr hne) hfail

/-- Witness for C4 amended at a concrete one-row input with an
always-failing destination. -/
theorem C4_no_retry_witness :
    influx_csv_go ["Date", "Open", "High", "Low", "Close", "Volume"]
      (fun _ => true)
      [(⟨2021, 1, 1⟩,
        ["2021-01-01", "10.00", "11.00", "9.50", "10.50", "1000"])]
      0 [] [] = ([], some (.writeError 0)) :=
  C4_no_retry _ _ _
    (fun x hx => by
      cases hx with
      | head => decide
      | tail _ hx => cases hx)
    (by decide) rfl

/-- Claim C5 counterexample: a record with high = 1 and low = 9 violates
`low <= high`, yet the run writes it unchanged and succeeds exactly as
for a well-formed record: no `RecordIntegrityWarning` is emitted, no
record is dropped, and no configuration choice exists — the violation is
silently ignored. -/
theorem C5_counterexample :
    (1 : Rat) < 9 ∧
    ionq_run [(⟨2021, 1, 1⟩,
        ⟨"2021-01-01", "10.00", "1.00", "9.00", "10.50", "1000"⟩)] none =
      { written := [⟨"ionq_stock", ⟨2021, 1, 1⟩,
          [("open", .floatVal 10), ("high", .floatVal 1),
           ("low", .floatVal 9), ("close", .floatVal (mkRat 21 2)),
           ("volume", .intVal 1000)]⟩],
        failedRow := none, queriedLastClose := true,
        printedLastClose := none, success := true } := by decide

/-- Claim C5 amended: no integrity check exists.  Every row whose cells
convert is written unchanged and the run succeeds — including records
with `high < low`; no warning, no dropping, and no drop-vs-pass-through
configuration option exist anywhere in the scripts (records satisfying
the invariant pass through only vacuously). -/
theorem C5_no_integrity_check (d : Date) (r : RawRow)
    (o h l c : Rat) (v : Int)
    (ho : pyFloat r.Open = some o) (hh : pyFloat r.High = some h)
    (hl : pyFloat r.Low = some l) (hc : pyFloat r.Close = some c)
    (hv : pyInt r.Volume = some v) (hviol : h < l) :
    ionq_run [(d, r)] none =
      { written := [⟨"ionq_stock", d,
          [("open", .floatVal o), ("high", .floatVal h), ("low", .floatVal l),
           ("close", .floatVal c), ("volume", .intVal v)]⟩],
        failedRow := none, queriedLastClose := true,
        printedLastClose := none, success := true } :=
  ionq_run_single_ok d r o h l c v none ho hh hl hc hv

/-- Witness for C5 amended at a concrete `high < low` row. -/
theorem C5_no_integrity_check_witness :
    ionq_run [(⟨2021, 1, 1⟩,
        ⟨"2021-01-01", "10.00", "1.00", "9.00", "10.50", "1000"⟩)] none =
      { written := [⟨"ionq_stock", ⟨2021, 1, 1⟩,
          [("open", .floatVal 10), ("high", .floatVal 1),
           ("low", .floatVal 9), ("close", .floatVal (mkRat 21 2)),
           ("volume", .intVal 1000)]⟩],
        failedRow := none, queriedLastClose := true,
        printedLastClose := none, success := true } :=
  C5_no_integrity_check ⟨2021, 1, 1⟩
    ⟨"2021-01-01", "10.00", "1.00", "9.00", "10.50", "1000"⟩
    10 1 9 (mkRat 21 2) 1000
    (by decide) (by decide) (by decide) (by decide) (by decide) (by decide)

/-- Claim C6: idempotence.  Embedded path: re-running
`df.to_sql('ionq_prices', ..., if_exists='replace')` on the same input
leaves the database exactly as after one run.  Remote path: writing the
point sequence produced by the import loop a second time leaves the
sink's record set — which overwrites on the measurement/timestamp
key — exactly as after one write.  No duplicates arise either way. -/
theorem C6_idempotent :
    (∀ (db : List (String × SqlTable)) (rows : List PriceRow),
      to_sql_replace (to_sql_replace db "ionq_prices" (priceTable rows))
          "ionq_prices" (priceTable rows) =
        to_sql_replace db "ionq_prices" (priceTable rows)) ∧
    (∀ (s : SinkState) (rows : List (Date × RawRow)),
      sinkWriteAll (sinkWriteAll s (ionq_write_loop rows).1)
          (ionq_write_loop rows).1 =
        sinkWriteAll s (ionq_write_loop rows).1) :=
  ⟨fun db rows => to_sql_replace_idem db "ionq_prices" (priceTable rows),
   fun s rows => sinkWriteAll_idem s (ionq_write_loop rows).1⟩

/-- Claim C7 counterexample: a CSV whose header lacks the required
`Open` column but which has no data rows.  The run does not fail: the
missing column is only ever touched inside the per-row loop, which
never executes, so the import reports success and even issues its
verification query.  No header validation and no `MalformedInputError`
exist. -/
theorem C7_counterexample :
    influx_csv_run ⟨["Date", "High", "Low", "Close", "Volume"], []⟩
      (fun _ => false) none =
      { writes := [], error := none, queriedLastClose := true,
        printedLastClose := none, success := true } := by decide

/-- Claim C7 amended: a missing `Date` column always aborts the run
(unhandled `KeyError` at the date-conversion statement, before any row
is processed); a missing `Open` column aborts the run only when at
least one data row exists — the unhandled per-row `KeyError` at row 0 —
while with zero data rows the run succeeds; in no case is a typed
`MalformedInputError` produced by a header check. -/
theorem C7_missing_column (c : Csv) (fa : Nat → Bool) (ans : Option Rat) :
    (c.header.contains "Date" = false →
      influx_csv_run c fa ans =
        { writes := [], error := some (.keyError "Date"),
          queriedLastClose := false, printedLastClose := none,
          success := false }) ∧
    (∀ dates : List Date, pdDateColumn c = .ok dates →
      c.header.contains "Open" = false → c.rows ≠ [] →
      influx_csv_run c fa ans =
        { writes := [], error := some (.rowError 0),
          queriedLastClose := false, printedLastClose := none,
          success := false }) ∧
    (c.header.contains "Date" = true → c.rows = [] →
      influx_csv_run c fa ans =
        { writes := [], error := none, queriedLastClose := true,
          printedLastClose := ans, success := true }) := by
  refine ⟨?_, ?_, ?_⟩
  · intro hdate
    rw [influx_csv_run, pdDateColumn,
      if_neg (by rw [hdate]; exact Bool.false_ne_true)]
  · intro dates hdc hopen hne
    obtain ⟨r0, rs, hr⟩ : ∃ r0 rs, c.rows = r0 :: rs := by
      cases hcr : c.rows with
      | nil => exact absurd hcr hne
      | cons u w => exact ⟨u, w, rfl⟩
    have hdl : dates.length = c.rows.length := pdDateColumn_length c dates hdc
    obtain ⟨d0, ds, hd⟩ : ∃ d0 ds, dates = d0 :: ds := by
      cases dates with
      | nil => rw [hr] at hdl; simp at hdl
      | cons u w => exact ⟨u, w, rfl⟩
    have hbp : buildPointFromCells c.header d0 r0 = none := by
      rw [buildPointFromCells, getCol_of_not_contains "Open" c.header r0 hopen]
      rfl
    rw [influx_csv_run, hdc]
    rw [hd, hr]
    simp only [List.zip_cons_cons, influx_csv_go, hbp]
  · intro hdate hrows
    rw [influx_csv_run, pdDateColumn, hrows, if_pos hdate]
    simp [parseDateCells, influx_csv_go]

/-- Witness for C7 amended: the three cases at concrete inputs. -/
theorem C7_missing_column_witness :
    influx_csv_run ⟨["High", "Low", "Close", "Volume"],
        [["1.00", "0.50", "0.75", "10"]]⟩ (fun _ => false) none =
      { writes := [], error := some (.keyError "Date"),
        queriedLastClose := false, printedLastClose := none,
        success := false } ∧
    influx_csv_run ⟨["Date", "High", "Low", "Close", "Volume"],
        [["2021-01-01", "1.00", "0.50", "0.75", "10"]]⟩
      (fun _ => false) none =
      { writes := [], error := some (.rowError 0),
        queriedLastClose := false, printedLastClose := none,
        success := false } ∧
    influx_csv_run ⟨["Date", "High", "Low", "Close", "Volume"], []⟩
      (fun _ => false) none =
      { writes := [], error := none, queriedLastClose := true,
        printedLastClose := none, success := true } :=
  ⟨(C7_missing_column _ _ _).1 (by decide),
   (C7_missing_column _ _ _).2.1 [⟨2021, 1, 1⟩] rfl (by decide)
     (by decide),
   (C7_missing_column _ _ _).2.2 (by decide) rfl⟩

/-- Claim C8: the embedded-store run stores a single table named
`ionq_prices` whose columns match `PriceRecord` (a date, the four price
decimals, the integer volume); any existing table of that name is
replaced on each run, and tables of other names are untouched. -/
theorem C8_replace_table (db : List (String × SqlTable))
    (rows : List PriceRow) :
    (to_sql_replace db "ionq_prices" (priceTable rows)).filter
        (fun e => e.1 == "ionq_prices") =
      [("ionq_prices", priceTable rows)] ∧
    (priceTable rows).columns =
      ["Date", "Open", "High", "Low", "Close", "Volume"] ∧
    ∀ other : String, other ≠ "ionq_prices" →
      (to_sql_replace db "ionq_prices" (priceTable rows)).filter
          (fun e => e.1 == other) =
        db.filter (fun e => e.1 == other) :=
  ⟨to_sql_replace_lookup db "ionq_prices" (priceTable rows), rfl,
   fun other hother =>
     to_sql_replace_other db "ionq_prices" other (priceTable rows) hother⟩

/-- Witness for C8 at a concrete database of two tables. -/
theorem C8_replace_table_witness :
    (to_sql_replace [("other", ⟨[], []⟩), ("ionq_prices", ⟨["old"], []⟩)]
        "ionq_prices" (priceTable [])).filter
        (fun e => e.1 == "other") = [("other", (⟨[], []⟩ : SqlTable))] := by
  rw [(C8_replace_table [("other", ⟨[], []⟩), ("ionq_prices", ⟨["old"], []⟩)]
    []).2.2 "other" (by decide)]
  decide

/-- Claim C9: on the remote path every convertible input row becomes
exactly one point: measurement `ionq_stock`, timestamp equal to the
row's parsed date, and exactly the five fields open, high, low, close
and volume — the four prices as parsed floats and the volume as a
parsed integer — and the per-row run writes exactly one such point per
input row, in input order. -/
theorem C9_point_shape (rows : List (Date × RawRow))
    (hvalid : ∀ x ∈ rows, (buildPoint x.1 x.2).isSome = true) :
    (ionq_write_loop rows).2 = none ∧
    (ionq_write_loop rows).1 = rows.map pointOf ∧
    ∀ x ∈ rows, ∀ (o h l c : Rat) (v : Int),
      pyFloat x.2.Open = some o → pyFloat x.2.High = some h →
      pyFloat x.2.Low = some l → pyFloat x.2.Close = some c →
      pyInt x.2.Volume = some v →
      buildPoint x.1 x.2 = some ⟨"ionq_stock", x.1,
        [("open", .floatVal o), ("high", .floatVal h), ("low", .floatVal l),
         ("close", .floatVal c), ("volume", .intVal v)]⟩ := by
  have hok := ionq_write_go_ok rows 0 [] hvalid
  refine ⟨?_, ?_, ?_⟩
  · rw [ionq_write_loop, hok]
  · rw [ionq_write_loop, hok]
    simp
  · intro x _ o h l c v ho hh hl hc hv
    simp [buildPoint, ho, hh, hl, hc, hv]

/-- Witness for C9 at a concrete one-row input. -/
theorem C9_point_shape_witness :
    (ionq_write_loop [(⟨2021, 1, 1⟩,
        ⟨"2021-01-01", "10.00", "11.00", "9.50", "10.50", "1000"⟩)]).1 =
      [pointOf (⟨2021, 1, 1⟩,
        ⟨"2021-01-01", "10.00", "11.00", "9.50", "10.50", "1000"⟩)] :=
  (C9_point_shape
    [(⟨2021, 1, 1⟩, ⟨"2021-01-01", "10.00", "11.00", "9.50", "10.50", "1000"⟩)]
    (fun x hx => by
      cases hx with
      | head => decide
      | tail _ hx => cases hx)).2.1

/-- Claim C10: a numeric-conversion failure at some row aborts the run
at that row as an unhandled exception — non-zero exit, no verification
query — while everything already sent to the destination stays there:
one point per preceding row on the per-row script, and the previously
flushed full 1000-point batches on the batched script; no rollback of
any kind occurs. -/
theorem C10_partial_import (good : List (Date × RawRow))
    (bad : Date × RawRow) (rest : List (Date × RawRow))
    (hv : ∀ x ∈ good, (buildPoint x.1 x.2).isSome = true)
    (hbad : buildPoint bad.1 bad.2 = none) (ans : Option Rat) :
    ionq_run (good ++ bad :: rest) ans =
      { written := good.map pointOf, failedRow := some good.length,
        queriedLastClose := false, printedLastClose := none,
        success := false } ∧
    ∀ (header : List String) (cgood : List (Date × List String))
      (cbad : Date × List String) (crest : List (Date × List String)),
      (∀ x ∈ cgood, (buildPointFromCells header x.1 x.2).isSome = true) →
      buildPointFromCells header cbad.1 cbad.2 = none →
      (influx_csv_go header (fun _ => false) (cgood ++ cbad :: crest)
          0 [] []).1.map List.length =
        List.replicate (cgood.length / 1000) 1000 ∧
      (influx_csv_go header (fun _ => false) (cgood ++ cbad :: crest)
          0 [] []).2 = some (.rowError cgood.length) := by
  constructor
  · have hfail := ionq_write_go_fail good bad rest 0 [] hv hbad
    rw [ionq_run, ionq_write_loop, hfail]
    simp
  · intro header cgood cbad crest hcv hcbad
    have hfail := influx_csv_go_fail header cbad crest cgood 0 [] [] hcv
      hcbad (by simp)
    refine ⟨?_, ?_⟩
    · rw [hfail.1]
      simp
    · rw [hfail.2, Nat.zero_add]

/-- Witness for C10: a two-row input whose second row has a non-numeric
volume; the first row's point stays written, the run aborts at row 1. -/
theorem C10_partial_import_witness :
    ionq_run [(⟨2021, 1, 1⟩,
        ⟨"2021-01-01", "10.00", "11.00", "9.50", "10.50", "1000"⟩),
      (⟨2021, 1, 2⟩,
        ⟨"2021-01-02", "10.50", "12.00", "10.00", "11.00", "abc"⟩)] none =
      { written := [pointOf (⟨2021, 1, 1⟩,
          ⟨"2021-01-01", "10.00", "11.00", "9.50", "10.50", "1000"⟩)],
        failedRow := some 1, queriedLastClose := false,
        printedLastClose := none, success := false } :=
  (C10_partial_import
    [(⟨2021, 1, 1⟩, ⟨"2021-01-01", "10.00", "11.00", "9.50", "10.50", "1000"⟩)]
    (⟨2021, 1, 2⟩, ⟨"2021-01-02", "10.50", "12.00", "10.00", "11.00", "abc"⟩)
    []
    (fun x hx => by
      cases hx with
      | head => decide
      | tail _ hx => cases hx)
    (by decide) none).1

end ANFA
